import Mathlib

/-
Verification of the readiness-check program `hack/check-operator-ready.go`
against its natural-language specification.

The program performs two sequential polls against a Kubernetes cluster:
first it waits until the operator deployment exists (a Get probe), then it
waits until an OpenTelemetryCollector instance can be created (a Create
probe).  Both polls use the library primitive `wait.Poll` with a fixed
interval of 500 ms and a configurable timeout (default 300 s).

External effects (cluster calls, printing) are embedded by passing the
results of the cluster calls explicitly: a `ClusterEnv` records, for each
kind of cluster call, the error it returns on each invocation (`none`
meaning the call succeeded).  Durations are natural numbers of
milliseconds.
-/

namespace CheckOperatorReady

/-- Result of one probe attempt, as classified by the polling primitive:
the probe reports success, asks to be retried, or reports a fatal error. -/
inductive ProbeResult (ε : Type) where
  | success
  | retry
  | fatalError (e : ε)
deriving DecidableEq, Repr

/-- Final outcome of a poll. -/
inductive Outcome (ε : Type) where
  | succeeded
  | timedOut
  | failed (e : ε)
deriving DecidableEq, Repr

/-- The data the polling primitive is given: an interval between attempts,
an overall timeout, and the condition probe.  The probe is side-effecting
in the program; here it is embedded as the sequence of results of its
successive invocations (invocation index ↦ result). -/
structure PollSpec (ε : Type) where
  interval : Nat
  timeout : Nat
  condition : Nat → ProbeResult ε

/-- What a finished poll did: its outcome, how many times it invoked the
condition, and the total time it spent sleeping between attempts. -/
structure PollResult (ε : Type) where
  outcome : Outcome ε
  invocations : Nat
  slept : Nat
deriving DecidableEq, Repr

/-- Modelled from the spec: the loop of `wait.Poll`
(`k8s.io/apimachinery/pkg/util/wait`), whose source is not part of this
repository.  Spec §4.1: "invoke `condition` immediately; if `Success`,
return success immediately (no wait).  If `Retry`, sleep for `interval`,
then re-invoke, repeating until either `Success` is returned or cumulative
elapsed time exceeds `timeout`.  If `FatalError` is ever returned, stop
immediately and propagate that error", together with the edge-case policy
"if `timeout` is zero, exactly one probe attempt is made (no wait)" and
the tie-break "success observed exactly at the timeout instant is reported
as success".  `fuel` bounds the recursion; `none` means the loop did not
finish within `fuel` attempts (with `interval ≥ 1` and enough fuel this
never happens, see `pollFuel_isSome`).  `n` is the number of invocations
made so far and `elapsed` the time slept so far. -/
def pollFuel (interval timeout : Nat) (cond : Nat → ProbeResult ε) :
    Nat → Nat → Nat → Option (PollResult ε)
  | 0, _, _ => none
  | fuel + 1, n, elapsed =>
    match cond n with
    | .success => some ⟨.succeeded, n + 1, elapsed⟩
    | .fatalError e => some ⟨.failed e, n + 1, elapsed⟩
    | .retry =>
      if timeout < elapsed + interval then some ⟨.timedOut, n + 1, elapsed⟩
      else pollFuel interval timeout cond fuel (n + 1) (elapsed + interval)

/-- Modelled from the spec: `Poll(spec) -> Outcome` (§4.1).  When
`interval ≥ 1`, at most `timeout / interval + 1` attempts happen, so
`timeout + 2` units of fuel always suffice. -/
def Poll (s : PollSpec ε) : Option (PollResult ε) :=
  pollFuel s.interval s.timeout s.condition (s.timeout + 2) 0 0

/-- With a positive interval and enough fuel, the loop finishes. -/
theorem pollFuel_isSome {ε : Type} (I T : Nat) (c : Nat → ProbeResult ε) :
    ∀ fuel n e, T - e < fuel * I → (pollFuel I T c fuel n e).isSome := by
  intro fuel
  induction fuel with
  | zero => intro n e h; simp at h
  | succ f ih =>
    intro n e h
    rw [pollFuel]
    cases hc : c n with
    | success => simp
    | fatalError err => simp
    | retry =>
      by_cases hT : T < e + I
      · simp [hT]
      · simp only [hT, if_false]
        apply ih
        have : f * I + I = (f + 1) * I := (Nat.succ_mul f I).symm
        omega

/-- With a positive interval, `Poll` always terminates with a result. -/
theorem Poll_total {ε : Type} (s : PollSpec ε) (hI : 1 ≤ s.interval) :
    ∃ r, Poll s = some r := by
  have hmul : (s.timeout + 2) * 1 ≤ (s.timeout + 2) * s.interval :=
    Nat.mul_le_mul_left _ hI
  have h := pollFuel_isSome s.interval s.timeout s.condition
      (s.timeout + 2) 0 0 (by omega)
  rw [Poll]
  exact Option.isSome_iff_exists.mp h

/-- Loop lemma: when the condition retries below `k` and succeeds at `k`,
the loop reaches invocation `k` and succeeds, provided the accumulated
sleep stays within the timeout. -/
theorem pollFuel_retry_then_success {ε : Type} (I T k : Nat)
    (cond : Nat → ProbeResult ε)
    (hretry : ∀ m, m < k → cond m = ProbeResult.retry)
    (hsucc : cond k = ProbeResult.success) :
    ∀ fuel n e, n ≤ k → e + (k - n) * I ≤ T → k - n < fuel →
      ∃ s, pollFuel I T cond fuel n e =
        some ⟨Outcome.succeeded, k + 1, s⟩ := by
  intro fuel
  induction fuel with
  | zero => intro n e _ _ hf; omega
  | succ f ih =>
    intro n e hn he hf
    rcases eq_or_lt_of_le hn with rfl | hlt
    · rw [pollFuel, hsucc]
      exact ⟨e, rfl⟩
    · obtain ⟨d, hd⟩ : ∃ d, k - n = d + 1 := ⟨k - n - 1, by omega⟩
      rw [hd, Nat.succ_mul] at he
      rw [pollFuel, hretry n hlt]
      have hif : ¬ T < e + I := by omega
      rw [if_neg hif]
      have he2 : (e + I) + (k - (n + 1)) * I ≤ T := by
        have : k - (n + 1) = d := by omega
        rw [this]; omega
      obtain ⟨s, hs⟩ := ih (n + 1) (e + I) (by omega) he2 (by omega)
      exact ⟨s, hs⟩

/-- Loop lemma: with a condition that always retries, the loop times out
after `(T - e) / I + 1` further invocations. -/
theorem pollFuel_always_retry {ε : Type} (I T : Nat) (hI : 1 ≤ I) :
    ∀ fuel n e, T - e < fuel * I →
      ∃ s, pollFuel I T (fun _ => (ProbeResult.retry : ProbeResult ε)) fuel n e =
        some ⟨Outcome.timedOut, n + (T - e) / I + 1, s⟩ := by
  intro fuel
  induction fuel with
  | zero => intro n e h; simp at h
  | succ f ih =>
    intro n e h
    rw [pollFuel]
    by_cases hT : T < e + I
    · have hdiv : (T - e) / I = 0 := Nat.div_eq_of_lt (by omega)
      rw [if_pos hT, hdiv]
      exact ⟨e, rfl⟩
    · have hIle : I ≤ T - e := by omega
      have hdiv : (T - e) / I = (T - e - I) / I + 1 :=
        Nat.div_eq_sub_div (by omega) hIle
      rw [if_neg hT]
      rw [Nat.succ_mul] at h
      obtain ⟨s, hs⟩ := ih (n + 1) (e + I) (by omega)
      refine ⟨s, ?_⟩
      rw [hs]
      have h2 : T - (e + I) = T - e - I := by omega
      rw [h2, hdiv]
      have h3 : n + 1 + (T - e - I) / I + 1 = n + ((T - e - I) / I + 1) + 1 := by
        ring
      rw [h3]

/-- Claim C4: if the condition retries on its first `k` invocations and
succeeds on invocation `k + 1`, and `k * interval < timeout`, then `Poll`
returns `Succeeded` after exactly `k + 1` invocations (interval positive,
per the data-model invariant). -/
theorem poll_retry_k_then_success (ε : Type) (I T k : Nat) (hI : 1 ≤ I)
    (cond : Nat → ProbeResult ε)
    (hretry : ∀ m, m < k → cond m = ProbeResult.retry)
    (hsucc : cond k = ProbeResult.success)
    (hk : k * I < T) :
    ∃ s, Poll ⟨I, T, cond⟩ = some ⟨Outcome.succeeded, k + 1, s⟩ := by
  have hkT : k < T + 2 := by
    have : k * 1 ≤ k * I := Nat.mul_le_mul_left _ hI
    omega
  exact pollFuel_retry_then_success I T k cond hretry hsucc
    (T + 2) 0 0 (by omega) (by simpa using hk.le) (by omega)

/-- Witness for C4 at a concrete input: two retries then success, with
interval 1 and timeout 5. -/
theorem poll_retry_k_then_success_witness :
    ∃ s, Poll ⟨1, 5, fun i => if i < 2 then ProbeResult.retry
        else (ProbeResult.success : ProbeResult Nat)⟩ =
      some ⟨Outcome.succeeded, 3, s⟩ :=
  poll_retry_k_then_success Nat 1 5 2 (by omega)
    (fun i => if i < 2 then ProbeResult.retry else ProbeResult.success)
    (fun m hm => by simp [hm]) (by norm_num) (by omega)

/-- Claim C6: with a positive interval `I`, a positive timeout `T` and a
condition that always retries, `Poll` terminates with `TimedOut` after a
finite number of invocations, and that number differs from `T / I` by at
most one. -/
theorem poll_always_retry_times_out (ε : Type) (I T : Nat)
    (hI : 1 ≤ I) (hT : 1 ≤ T) :
    ∃ r, Poll ⟨I, T, fun _ => (ProbeResult.retry : ProbeResult ε)⟩ = some r ∧
      r.outcome = Outcome.timedOut ∧
      r.invocations = T / I + 1 ∧
      r.invocations - T / I ≤ 1 ∧ T / I - r.invocations ≤ 1 := by
  have hmul : (T + 2) * 1 ≤ (T + 2) * I := Nat.mul_le_mul_left _ hI
  obtain ⟨s, hs⟩ := pollFuel_always_retry (ε := ε) I T hI (T + 2) 0 0 (by omega)
  exact ⟨⟨Outcome.timedOut, 0 + (T - 0) / I + 1, s⟩, hs, rfl,
    by simp, by simp, by simp⟩

/-- Witness for C6 at a concrete input: interval 2, timeout 5. -/
theorem poll_always_retry_times_out_witness :
    ∃ r, Poll ⟨2, 5, fun _ => (ProbeResult.retry : ProbeResult Nat)⟩ = some r ∧
      r.outcome = Outcome.timedOut ∧
      r.invocations = 5 / 2 + 1 ∧
      r.invocations - 5 / 2 ≤ 1 ∧ 5 / 2 - r.invocations ≤ 1 :=
  poll_always_retry_times_out Nat 2 5 (by omega) (by omega)

/-- Claim C1: for every `PollSpec` whose condition returns `Success` on
every invocation, `Poll` invokes the condition immediately (zero time
slept before it) and returns `Succeeded` after exactly one invocation of
the condition, for every interval and every timeout. -/
theorem poll_always_success_one_invocation (ε : Type) (I T : Nat) :
    Poll ⟨I, T, fun _ => (ProbeResult.success : ProbeResult ε)⟩ =
      some ⟨Outcome.succeeded, 1, 0⟩ := by
  show pollFuel I T _ (T + 1 + 1) 0 0 = _
  rw [pollFuel]

/-- Claim C5: if the condition returns `FatalError e` on its first
invocation, `Poll` returns `Failed e` after that single invocation,
having slept zero time (no interval wait). -/
theorem poll_fatal_immediate (ε : Type) (I T : Nat)
    (cond : Nat → ProbeResult ε) (e : ε) (h : cond 0 = ProbeResult.fatalError e) :
    Poll ⟨I, T, cond⟩ = some ⟨Outcome.failed e, 1, 0⟩ := by
  show pollFuel I T _ (T + 1 + 1) 0 0 = _
  rw [pollFuel]
  dsimp only
  rw [h]

/-- Witness for C5 at a concrete input. -/
theorem poll_fatal_immediate_witness :
    Poll ⟨500, 300000, fun _ => ProbeResult.fatalError 7⟩ =
      some ⟨Outcome.failed 7, 1, 0⟩ :=
  poll_fatal_immediate Nat 500 300000 (fun _ => ProbeResult.fatalError 7) 7 rfl

/-- Claim C3: with `timeout = 0` (and a positive interval, the data-model
invariant), `Poll` makes exactly one probe attempt and sleeps zero time,
whatever the condition; in particular with a condition that always
returns `Retry` it returns `TimedOut` after exactly one invocation. -/
theorem poll_zero_timeout_one_attempt (ε : Type) (I : Nat) (hI : 1 ≤ I)
    (cond : Nat → ProbeResult ε) :
    (∃ r, Poll ⟨I, 0, cond⟩ = some r ∧ r.invocations = 1 ∧ r.slept = 0) ∧
    Poll ⟨I, 0, fun _ => (ProbeResult.retry : ProbeResult ε)⟩ =
      some ⟨Outcome.timedOut, 1, 0⟩ := by
  have hlt : 0 < 0 + I := by omega
  constructor
  · show ∃ r, pollFuel I 0 cond (0 + 1 + 1) 0 0 = some r ∧ _
    rw [pollFuel]
    cases cond 0 with
    | success => exact ⟨_, rfl, rfl, rfl⟩
    | retry => simp only [hlt, if_true]; exact ⟨_, rfl, rfl, rfl⟩
    | fatalError e => exact ⟨_, rfl, rfl, rfl⟩
  · show pollFuel I 0 _ (0 + 1 + 1) 0 0 = _
    rw [pollFuel]
    simp only [hlt, if_true]

/-- Witness for C3 at a concrete input. -/
theorem poll_zero_timeout_one_attempt_witness :
    (∃ r, Poll ⟨500, 0, fun _ => (ProbeResult.retry : ProbeResult Nat)⟩ =
        some r ∧ r.invocations = 1 ∧ r.slept = 0) ∧
    Poll ⟨500, 0, fun _ => (ProbeResult.retry : ProbeResult Nat)⟩ =
      some ⟨Outcome.timedOut, 1, 0⟩ :=
  poll_zero_timeout_one_attempt Nat 500 (by omega) (fun _ => ProbeResult.retry)

/-! ## The program `hack/check-operator-ready.go`

Cluster calls are embedded by their results: `Option String`, with `none`
for a `nil` error and `some e` for an error whose message is `e`.  A
`ClusterEnv` fixes the result of every cluster call the program can make:
the kubeconfig load, the client construction, the `Get` of the operator
deployment on each attempt, the two `Delete` calls on the collector
instance, and the `Create` of the collector on each attempt. -/

structure ClusterEnv where
  kubeconfigErr : Option String
  clientErr : Option String
  getErr : Nat → Option String
  deleteBeforeErr : Option String
  createErr : Nat → Option String
  deleteAfterErr : Option String

/-- The anonymous condition closure of the first poll (lines 74–88 of the
source): `Get` the operator deployment; on error, print it and return
`(false, nil)`; on success return `(true, nil)`.  It is a Go
`func() (done bool, err error)`; invocation `i` is embedded as a pair
`(done, err)` depending on the result `getE i` of the `i`-th `Get`. -/
def deploymentCondition (getE : Nat → Option String) (i : Nat) :
    Bool × Option String :=
  match getE i with
  | some _ => (false, none)
  | none => (true, none)

/-- The anonymous condition closure of the second poll (lines 110–120 of
the source): `Create` the collector instance; on error, print it and
return `(false, nil)`; on success return `(true, nil)`. -/
def createCondition (createE : Nat → Option String) (i : Nat) :
    Bool × Option String :=
  match createE i with
  | some _ => (false, none)
  | none => (true, none)

/-- Modelled from the spec: how the polling primitive classifies the
result of a Go-style condition `func() (done bool, err error)` (the spec's
collaborator contract, §4.1/§6): a non-nil error is fatal and stops the
poll, `(true, nil)` is success, `(false, nil)` is a transient failure to
be retried. -/
def condOfGo (c : Nat → Bool × Option String) (i : Nat) : ProbeResult String :=
  match c i with
  | (_, some e) => ProbeResult.fatalError e
  | (true, none) => ProbeResult.success
  | (false, none) => ProbeResult.retry

/-- Line 56 of the source: `pollInterval := 500 * time.Millisecond`,
in milliseconds. -/
def pollIntervalMs : Nat := 500

/-- Line 57 of the source: `timeoutPoll := time.Duration(timeout) *
time.Second`, in milliseconds, from the `--timeout` flag value in
seconds. -/
def timeoutPollMs (timeout : Nat) : Nat := timeout * 1000

/-- The first poll of `main` (lines 74–88): wait until the operator
deployment can be fetched. -/
def firstPoll (env : ClusterEnv) (timeout : Nat) : Option (PollResult String) :=
  Poll ⟨pollIntervalMs, timeoutPollMs timeout,
    condOfGo (deploymentCondition env.getErr)⟩

/-- The second poll of `main` (lines 110–120): wait until the collector
instance can be created. -/
def secondPoll (env : ClusterEnv) (timeout : Nat) : Option (PollResult String) :=
  Poll ⟨pollIntervalMs, timeoutPollMs timeout,
    condOfGo (createCondition env.createErr)⟩

/-- Modelled from the spec: the error value `wait.Poll` hands back to its
caller for each outcome — `nil` on success, the timeout error on timeout,
and the condition's own error when the condition returned one. -/
def outcomeErr : Outcome String → Option String
  | Outcome.succeeded => none
  | Outcome.timedOut => some "timed out waiting for the condition"
  | Outcome.failed e => some e

/-- What a run of `main` is observed to do: the process exit code and the
messages printed at the top level of `main`, in order.  (The per-attempt
error printing inside the condition closures is I/O with no effect on
control flow and is not recorded.) -/
structure MainResult where
  exitCode : Nat
  output : List String
deriving DecidableEq, Repr

/-- The control flow of `main` (lines 46–128 of the source), after flag
parsing, as a function of the cluster environment and the `--timeout`
value.  `none` means `main` never finished (a poll that never
terminates); with the program's positive interval this does not happen
(`runMain_total`).  The two `Delete` calls on the collector instance
(lines 107 and 127) discard their result (`_ =`), so `deleteBeforeErr`
and `deleteAfterErr` are never read. -/
def runMain (env : ClusterEnv) (timeout : Nat) : Option MainResult :=
  match env.kubeconfigErr with
  | some e => some ⟨1, ["Error reading the kubeconfig: " ++ e]⟩
  | none =>
    match env.clientErr with
    | some e => some ⟨1, ["Creating the Kubernetes client " ++ e]⟩
    | none =>
      match firstPoll env timeout with
      | none => none
      | some r1 =>
        match secondPoll env timeout with
        | none => none
        | some r2 =>
          let out1 : List String :=
            ["Waiting until the OTEL Collector Operator is deployed"] ++
            (match outcomeErr r1.outcome with
             | some m => [m]
             | none => []) ++
            ["OTEL Collector Operator is deployed properly!",
             "Ensure the creation of OTEL Collectors is available"]
          match outcomeErr r2.outcome with
          | some m => some ⟨1, out1 ++ [m]⟩
          | none => some ⟨0, out1⟩

/-- The interval is positive (the data-model invariant holds for the
program's polls). -/
theorem pollIntervalMs_pos : 1 ≤ pollIntervalMs := by decide

/-- The first poll always finishes. -/
theorem firstPoll_total (env : ClusterEnv) (timeout : Nat) :
    ∃ r, firstPoll env timeout = some r :=
  Poll_total _ pollIntervalMs_pos

/-- The second poll always finishes. -/
theorem secondPoll_total (env : ClusterEnv) (timeout : Nat) :
    ∃ r, secondPoll env timeout = some r :=
  Poll_total _ pollIntervalMs_pos

/-- Both polls use the positive interval `pollIntervalMs`, so `main`
always finishes. -/
theorem runMain_total (env : ClusterEnv) (timeout : Nat) :
    ∃ res, runMain env timeout = some res := by
  obtain ⟨r1, h1⟩ := firstPoll_total env timeout
  obtain ⟨r2, h2⟩ := secondPoll_total env timeout
  rw [runMain]
  cases env.kubeconfigErr with
  | some e => exact ⟨_, rfl⟩
  | none =>
    cases env.clientErr with
    | some e => exact ⟨_, rfl⟩
    | none =>
      simp only [h1, h2]
      cases ho : outcomeErr r2.outcome with
      | some m => simp [ho]
      | none => simp [ho]

/-- The exit code of a finished run of `main`, as a function of the second
poll's result (lines 122–125: exit 1 when the second poll returned an
error, otherwise fall off the end of `main`, exit 0). -/
def mainExit (r2 : PollResult String) : Nat :=
  match outcomeErr r2.outcome with
  | some _ => 1
  | none => 0

/-- The top-level output of a finished run of `main`, as a function of the
two polls' results. -/
def mainOutput (r1 r2 : PollResult String) : List String :=
  ["Waiting until the OTEL Collector Operator is deployed"] ++
  (match outcomeErr r1.outcome with
   | some m => [m]
   | none => []) ++
  ["OTEL Collector Operator is deployed properly!",
   "Ensure the creation of OTEL Collectors is available"] ++
  (match outcomeErr r2.outcome with
   | some m => [m]
   | none => [])

/-- When the kubeconfig cannot be loaded, `main` exits 1 at once
(lines 59–63). -/
theorem runMain_kubeconfig_err (env : ClusterEnv) (timeout : Nat) (e : String)
    (hk : env.kubeconfigErr = some e) :
    runMain env timeout = some ⟨1, ["Error reading the kubeconfig: " ++ e]⟩ := by
  unfold runMain
  rw [hk]

/-- When the client cannot be constructed, `main` exits 1 at once
(lines 65–69). -/
theorem runMain_client_err (env : ClusterEnv) (timeout : Nat) (e : String)
    (hk : env.kubeconfigErr = none) (hc : env.clientErr = some e) :
    runMain env timeout = some ⟨1, ["Creating the Kubernetes client " ++ e]⟩ := by
  unfold runMain
  rw [hk, hc]

/-- Once kubeconfig and client are available, `main`'s result is
determined by the two polls' results. -/
theorem runMain_ok (env : ClusterEnv) (timeout : Nat) (r1 r2 : PollResult String)
    (hk : env.kubeconfigErr = none) (hc : env.clientErr = none)
    (h1 : firstPoll env timeout = some r1)
    (h2 : secondPoll env timeout = some r2) :
    runMain env timeout = some ⟨mainExit r2, mainOutput r1 r2⟩ := by
  unfold runMain
  rw [hk, hc, h1, h2]
  cases ho1 : outcomeErr r1.outcome <;> cases ho2 : outcomeErr r2.outcome <;>
    simp [mainExit, mainOutput, ho1, ho2]

/-- Claim C2: `main` exits 0 on full success; it exits 1 when the
kubeconfig cannot be loaded, when the client cannot be constructed, or
when the second (collector create) poll does not succeed; and when
kubeconfig and client are fine the exit code is a function of the second
poll's outcome alone, so a timeout of the first (deployment-presence)
poll never causes exit code 1. -/
theorem main_exit_codes (env : ClusterEnv) (timeout : Nat) :
    ∃ res, runMain env timeout = some res ∧
      (env.kubeconfigErr ≠ none → res.exitCode = 1) ∧
      (env.kubeconfigErr = none → env.clientErr ≠ none → res.exitCode = 1) ∧
      (env.kubeconfigErr = none → env.clientErr = none →
        ∃ r2, secondPoll env timeout = some r2 ∧
          res.exitCode = (if r2.outcome = Outcome.succeeded then 0 else 1)) := by
  cases hk : env.kubeconfigErr with
  | some e =>
    refine ⟨_, runMain_kubeconfig_err env timeout e hk, fun _ => rfl, ?_, ?_⟩
    · intro h _; simp [hk] at h
    · intro h _; simp [hk] at h
  | none =>
    cases hc : env.clientErr with
    | some e =>
      refine ⟨_, runMain_client_err env timeout e hk hc, fun _ => rfl,
        fun _ _ => rfl, ?_⟩
      intro _ h; simp [hc] at h
    | none =>
      obtain ⟨r1, h1⟩ := firstPoll_total env timeout
      obtain ⟨r2, h2⟩ := secondPoll_total env timeout
      refine ⟨_, runMain_ok env timeout r1 r2 hk hc h1 h2, ?_, ?_, ?_⟩
      · intro h; exact absurd rfl h
      · intro _ h; exact absurd rfl h
      · intro _ _
        refine ⟨r2, h2, ?_⟩
        cases hr2 : r2.outcome <;> simp [mainExit, outcomeErr, hr2]

/-- The first poll's condition never reports a fatal error: a failed `Get`
is mapped to `(false, nil)`, a retry. -/
theorem condOfGo_deployment_not_fatal (getE : Nat → Option String)
    (i : Nat) (e : String) :
    condOfGo (deploymentCondition getE) i ≠ ProbeResult.fatalError e := by
  rw [condOfGo, deploymentCondition]
  cases getE i <;> simp

/-- The second poll's condition never reports a fatal error: a failed
`Create` is mapped to `(false, nil)`, a retry. -/
theorem condOfGo_create_not_fatal (createE : Nat → Option String)
    (i : Nat) (e : String) :
    condOfGo (createCondition createE) i ≠ ProbeResult.fatalError e := by
  rw [condOfGo, createCondition]
  cases createE i <;> simp

/-- A poll whose condition never reports a fatal error never ends in
`Failed`. -/
theorem pollFuel_no_fatal {ε : Type} (I T : Nat) (c : Nat → ProbeResult ε)
    (hc : ∀ i e, c i ≠ ProbeResult.fatalError e) :
    ∀ fuel n el r, pollFuel I T c fuel n el = some r →
      ∀ e, r.outcome ≠ Outcome.failed e := by
  intro fuel
  induction fuel with
  | zero => intro n el r h; rw [pollFuel] at h; cases h
  | succ f ih =>
    intro n el r h e
    rw [pollFuel] at h
    cases hcn : c n with
    | success => rw [hcn] at h; cases h; simp
    | fatalError e2 => exact absurd hcn (hc n e2)
    | retry =>
      rw [hcn] at h
      by_cases hT : T < el + I
      · rw [if_pos hT] at h; cases h; simp
      · rw [if_neg hT] at h; exact ih _ _ _ h e

/-- Claim C7: a probe-level error is converted into a retry by both of the
program's condition closures, and a poll driven by either closure never
surfaces a `Failed` outcome: the caller observes only the final outcome,
which is `Succeeded` or `TimedOut`. -/
theorem probe_errors_never_escape (probe : Nat → Option String) (I T : Nat) :
    (∀ i e, probe i = some e →
      condOfGo (deploymentCondition probe) i = ProbeResult.retry ∧
      condOfGo (createCondition probe) i = ProbeResult.retry) ∧
    (∀ r e, Poll ⟨I, T, condOfGo (deploymentCondition probe)⟩ = some r →
      r.outcome ≠ Outcome.failed e) ∧
    (∀ r e, Poll ⟨I, T, condOfGo (createCondition probe)⟩ = some r →
      r.outcome ≠ Outcome.failed e) := by
  refine ⟨?_, ?_, ?_⟩
  · intro i e h
    constructor <;> rw [condOfGo]
    · rw [deploymentCondition, h]
    · rw [createCondition, h]
  · intro r e h
    exact pollFuel_no_fatal I T (condOfGo (deploymentCondition probe))
      (condOfGo_deployment_not_fatal probe) (T + 2) 0 0 r h e
  · intro r e h
    exact pollFuel_no_fatal I T (condOfGo (createCondition probe))
      (condOfGo_create_not_fatal probe) (T + 2) 0 0 r h e

/-- Claim C8: both condition closures of this program always return a nil
error, so the fatal-error outcome of `Poll` is unreachable in this
program: each of the two polls can only end in `Succeeded` or
`TimedOut`. -/
theorem program_polls_never_fatal (env : ClusterEnv) (timeout : Nat) :
    (∀ i, (deploymentCondition env.getErr i).2 = none) ∧
    (∀ i, (createCondition env.createErr i).2 = none) ∧
    (∀ r, firstPoll env timeout = some r →
      r.outcome = Outcome.succeeded ∨ r.outcome = Outcome.timedOut) ∧
    (∀ r, secondPoll env timeout = some r →
      r.outcome = Outcome.succeeded ∨ r.outcome = Outcome.timedOut) := by
  refine ⟨?_, ?_, ?_, ?_⟩
  · intro i; rw [deploymentCondition]; cases env.getErr i <;> rfl
  · intro i; rw [createCondition]; cases env.createErr i <;> rfl
  · intro r h
    have hnf := pollFuel_no_fatal pollIntervalMs (timeoutPollMs timeout)
      (condOfGo (deploymentCondition env.getErr))
      (condOfGo_deployment_not_fatal env.getErr)
      (timeoutPollMs timeout + 2) 0 0 r h
    cases hr : r.outcome with
    | succeeded => exact Or.inl rfl
    | timedOut => exact Or.inr rfl
    | failed e => exact absurd hr (hnf e)
  · intro r h
    have hnf := pollFuel_no_fatal pollIntervalMs (timeoutPollMs timeout)
      (condOfGo (createCondition env.createErr))
      (condOfGo_create_not_fatal env.createErr)
      (timeoutPollMs timeout + 2) 0 0 r h
    cases hr : r.outcome with
    | succeeded => exact Or.inl rfl
    | timedOut => exact Or.inr rfl
    | failed e => exact absurd hr (hnf e)

/-- Claim C9: once kubeconfig and client are available, every run of
`main` prints "OTEL Collector Operator is deployed properly!" after the
first poll — whatever that poll's outcome, including `TimedOut` — and then
proceeds to the second (collector create) check, printing its banner and
running its poll. -/
theorem deployed_message_unconditional (env : ClusterEnv) (timeout : Nat)
    (hk : env.kubeconfigErr = none) (hc : env.clientErr = none) :
    ∃ res, runMain env timeout = some res ∧
      "OTEL Collector Operator is deployed properly!" ∈ res.output ∧
      "Ensure the creation of OTEL Collectors is available" ∈ res.output ∧
      ∃ r2, secondPoll env timeout = some r2 := by
  obtain ⟨r1, h1⟩ := firstPoll_total env timeout
  obtain ⟨r2, h2⟩ := secondPoll_total env timeout
  refine ⟨_, runMain_ok env timeout r1 r2 hk hc h1 h2, ?_, ?_, r2, h2⟩ <;>
    simp [mainOutput]

/-- Witness for C9 at a concrete input: an environment in which the
deployment `Get` fails on every attempt, so the first poll ends in
`TimedOut`, yet the message is printed and the second check runs. -/
theorem deployed_message_unconditional_witness :
    ∃ res,
      runMain ⟨none, none, fun _ => some "deployments not found", none,
        fun _ => none, none⟩ 0 = some res ∧
      "OTEL Collector Operator is deployed properly!" ∈ res.output ∧
      "Ensure the creation of OTEL Collectors is available" ∈ res.output ∧
      ∃ r2, secondPoll ⟨none, none, fun _ => some "deployments not found",
        none, fun _ => none, none⟩ 0 = some r2 :=
  deployed_message_unconditional
    ⟨none, none, fun _ => some "deployments not found", none,
      fun _ => none, none⟩ 0 rfl rfl

/-- Claim C10: the results of the two `Delete` calls on the collector
instance are discarded: two environments that differ only in the results
of the `Delete` calls produce identical runs of `main` (same exit code and
output), and there is a run in which both `Delete` calls fail and `main`
still exits 0 — exit 0 does not imply the collector was deleted. -/
theorem delete_results_ignored :
    (∀ env env2 : ClusterEnv, ∀ timeout : Nat,
      env.kubeconfigErr = env2.kubeconfigErr →
      env.clientErr = env2.clientErr →
      env.getErr = env2.getErr →
      env.createErr = env2.createErr →
      runMain env timeout = runMain env2 timeout) ∧
    (∃ env : ClusterEnv, ∃ timeout : Nat, ∃ res,
      env.deleteBeforeErr ≠ none ∧ env.deleteAfterErr ≠ none ∧
      runMain env timeout = some res ∧ res.exitCode = 0) := by
  constructor
  · intro env env2 t h1 h2 h3 h4
    cases env
    cases env2
    simp only at h1 h2 h3 h4
    subst h1; subst h2; subst h3; subst h4
    simp only [runMain, firstPoll, secondPoll]
  · refine ⟨⟨none, none, fun _ => none, some "delete failed",
      fun _ => none, some "delete failed"⟩, 0, ⟨0, _⟩, by simp, by simp,
      rfl, rfl⟩

end CheckOperatorReady
